import Mathlib

/-!
Verification development for the article service of the `medium` blogging
platform (Express + Mongoose backend, `backend/models/Article.js` and
`backend/routes/articles` route handlers).  The JavaScript data model and the
route handlers relevant to the documented behaviour are shallowly embedded as
executable Lean definitions; object ids and timestamps are modelled as `Nat`.
-/

set_option maxRecDepth 100000

namespace Medium

/-! ## JavaScript string primitives used by the model and routes -/

/-- Whitespace as matched by the JavaScript regex class `\s` (ASCII part;
space, tab, newline, carriage return, vertical tab, form feed). -/
def jsIsWs (c : Char) : Bool :=
  c = ' ' || c = '\t' || c = '\n' || c = '\r' || c = Char.ofNat 11 || c = Char.ofNat 12

/-- Worker for `jsSplitWs`.  `cur` holds the reversed characters of the
segment currently being read, `segs` the completed segments in order, and
`inSep` records whether the previous character belonged to a separator run
(whose segment has already been emitted). -/
def jsSplitWsGo : List Char → List Char → List String → Bool → List String
  | [], cur, segs, _ => segs ++ [String.mk cur.reverse]
  | c :: cs, cur, segs, inSep =>
    if jsIsWs c then
      if inSep then jsSplitWsGo cs [] segs true
      else jsSplitWsGo cs [] (segs ++ [String.mk cur.reverse]) true
    else jsSplitWsGo cs (c :: cur) segs false

/-- JavaScript `s.split(/\s+/)`: splits on maximal whitespace runs.  A leading
(resp. trailing) whitespace run contributes a leading (resp. trailing) empty
segment, and the empty string yields `[""]`. -/
def jsSplitWs (s : String) : List String :=
  jsSplitWsGo s.data [] [] false

/-- `Math.ceil (a / b)` for natural `a`, positive natural `b`. -/
def ceilDiv (a b : Nat) : Nat := (a + b - 1) / b

/-- JavaScript `content.replace(/[#*`]/g, '')`: drop every `#`, `*` and
backtick (character code 96). -/
def stripMd (s : String) : String :=
  String.mk (s.data.filter (fun c => !(c = '#' || c = '*' || c = Char.ofNat 96)))

/-- JavaScript `s.substring(0, n)`. -/
def jsSubstring (s : String) (n : Nat) : String :=
  String.mk (s.data.take n)

/-! ## Article data model (`backend/models/Article.js`) -/

/-- One element of the `likes` array: `{ user, createdAt }`. -/
structure LikeEntry where
  user : Nat
  createdAt : Nat
deriving DecidableEq, Repr

/-- One element of the `comments` array: `{ _id, user, content, createdAt }`. -/
structure CommentEntry where
  cid : Nat
  user : Nat
  content : String
  createdAt : Nat
deriving DecidableEq, Repr

/-- The `featuredImage` subdocument `{ public_id, url }` (both optional). -/
structure FeaturedImage where
  public_id : Option String
  url : Option String
deriving DecidableEq, Repr

/-- The Article document, fields as declared in the Mongoose schema. -/
structure Article where
  aid : Nat
  title : String
  content : String
  excerpt : Option String
  author : Nat
  tags : List String
  category : String
  featuredImage : Option FeaturedImage
  readTime : Nat
  likes : List LikeEntry
  comments : List CommentEntry
  published : Bool
  publishedAt : Option Nat
  views : Nat
  bookmarks : List Nat
deriving DecidableEq, Repr

/-- The schema's `maxlength` constraint on `excerpt`
(`'Excerpt cannot exceed 300 characters'`). -/
def excerptMaxlength : Nat := 300

/-- JavaScript truthiness of the `excerpt` field: `!this.excerpt` holds when
the field is `undefined` or the empty string. -/
def excerptAbsent : Option String → Bool
  | none => true
  | some s => s.isEmpty

/-- The excerpt derivation of the save hook: strip `#`, `*` and backtick,
take the first 300 characters, and append `'...'` exactly when the stripped
prefix has length 300. -/
def deriveExcerpt (content : String) : String :=
  let plainText := jsSubstring (stripMd content) 300
  plainText ++ (if plainText.length = 300 then "..." else "")

/-- The `articleSchema.pre('save')` hook.  `mContent` and `mPublished` are
`this.isModified('content')` and `this.isModified('published')`; `now` is the
current time used for `new Date()`. -/
def preSave (a : Article) (mContent mPublished : Bool) (now : Nat) : Article :=
  let a1 := if mContent then
      { a with readTime := ceilDiv (jsSplitWs a.content).length 200 }
    else a
  let a2 := if mContent && excerptAbsent a1.excerpt then
      { a1 with excerpt := some (deriveExcerpt a1.content) }
    else a1
  if mPublished && a2.published && a2.publishedAt.isNone then
    { a2 with publishedAt := some now }
  else a2

/-! ## List and detail routes (`GET /` and `GET /:id`) -/

/-- JavaScript `s.trim()` (ASCII whitespace). -/
def jsTrim (s : String) : String :=
  String.mk (((s.data.dropWhile jsIsWs).reverse.dropWhile jsIsWs).reverse)

/-- Containment of `needle` in `hay` as a contiguous run. -/
def listContainsRun : List Char → List Char → Bool
  | hay, needle =>
    needle.isPrefixOf hay ||
      match hay with
      | [] => false
      | _ :: t => listContainsRun t needle

/-- Case-insensitive substring match, the effect of the route's
`$regex: term, $options: 'i'` for a term without regex metacharacters. -/
def containsCI (hay needle : String) : Bool :=
  listContainsRun hay.toLower.data needle.toLower.data

/-- Query parameters of the public feed `GET /` (page/limit omitted: the
claims under verification are about membership, not pagination). -/
structure ListParams where
  tag : Option String
  category : Option String
  author : Option Nat
  search : Option String
deriving Repr

/-- The public feed with no filter parameters. -/
def noFilters : ListParams := ⟨none, none, none, none⟩

/-- The Mongo query built by `GET /`: `{ published: true }` plus the optional
tag / category / author / search clauses, applied to one article. -/
def listMatches (p : ListParams) (a : Article) : Bool :=
  a.published
  && (match p.tag with
      | some t => if (jsTrim t).isEmpty then true else a.tags.contains (jsTrim t)
      | none => true)
  && (match p.category with
      | some c =>
        if (jsTrim c).isEmpty || c = "All" then true else a.category = jsTrim c
      | none => true)
  && (match p.author with
      | some u => a.author = u
      | none => true)
  && (match p.search with
      | some s =>
        if (jsTrim s).isEmpty then true
        else
          containsCI a.title (jsTrim s) || containsCI a.content (jsTrim s)
            || a.tags.any (fun tg => containsCI tg (jsTrim s))
      | none => true)

/-- The visibility rule as the specification words it: an article is visible
iff it is published, or the requester is authenticated and is its author.
(Stated from the spec's words, to be compared with the routes' behaviour.) -/
def specVisible (requester : Option Nat) (a : Article) : Bool :=
  a.published ||
    (match requester with
     | some u => a.author = u
     | none => false)

/-- Outcome of the detail route: a 404, or a 200 with the responded article. -/
inductive DetailRes where
  | notFound
  | ok (a : Article)
deriving DecidableEq, Repr

/-- Whether a detail request succeeded. -/
def DetailRes.isOk : DetailRes → Bool
  | .ok _ => true
  | .notFound => false

/-- `GET /:id`: look the article up, return 404 when missing or when it is an
unpublished draft and the requester is not its author; otherwise respond with
the article and the incremented view counter. -/
def getArticle (store : List Article) (id : Nat) (requester : Option Nat) :
    DetailRes :=
  match store.find? (fun x => x.aid = id) with
  | none => .notFound
  | some a =>
    let isAuthor : Bool :=
      match requester with
      | some u => a.author = u
      | none => false
    if !a.published && !isAuthor then .notFound
    else .ok { a with views := a.views + 1 }

/-! ## Like and bookmark toggles (`POST /:id/like`, `POST /:id/bookmark`) -/

/-- Whether the user has a like entry (`article.likes.find(...)` truthiness). -/
def isLiked (a : Article) (u : Nat) : Bool :=
  a.likes.any (fun l => l.user = u)

/-- `article.likes.length`. -/
def likesCount (a : Article) : Nat := a.likes.length

/-- Whether the user is in `article.bookmarks`. -/
def isBookmarked (a : Article) (u : Nat) : Bool :=
  a.bookmarks.contains u

/-- `article.bookmarks.length`. -/
def bookmarksCount (a : Article) : Nat := a.bookmarks.length

/-- `POST /:id/like`: if the user already has a like entry remove it (the
route filters out every entry of that user), else push `{ user }` with the
current timestamp; then `article.save()` (content and published untouched, so
the hook runs with both modification flags false). -/
def likeToggle (a : Article) (u now : Nat) : Article :=
  let likes' :=
    if a.likes.any (fun l => l.user = u) then
      a.likes.filter (fun l => !(l.user = u))
    else
      a.likes ++ [{ user := u, createdAt := now }]
  preSave { a with likes := likes' } false false now

/-- `POST /:id/bookmark`: `bookmarks.includes` / `bookmarks.pull` /
`bookmarks.push`, then `article.save()`. -/
def bookmarkToggle (a : Article) (u now : Nat) : Article :=
  let bms :=
    if a.bookmarks.contains u then
      a.bookmarks.filter (fun x => !(x = u))
    else
      a.bookmarks ++ [u]
  preSave { a with bookmarks := bms } false false now

/-! ## Comment edit and delete
(`PUT /:id/comments/:commentId`, `DELETE /:id/comments/:commentId`) -/

/-- Outcome of a comment mutation: 404 (comment not found), 403, or 200 with
the updated article. -/
inductive CommentRes where
  | notFound
  | forbidden
  | ok (a : Article)
deriving DecidableEq, Repr

/-- Whether a comment mutation succeeded. -/
def CommentRes.isOk : CommentRes → Bool
  | .ok _ => true
  | _ => false

/-- `article.comments.id(commentId)`. -/
def findComment (a : Article) (cid : Nat) : Option CommentEntry :=
  a.comments.find? (fun c => c.cid = cid)

/-- `PUT /:id/comments/:commentId` after the article has been found: 404 when
the comment is missing, 403 unless the requester is the comment's author,
otherwise replace the comment's content and save. -/
def updateComment (a : Article) (cid uid : Nat) (newContent : String) :
    CommentRes :=
  match findComment a cid with
  | none => .notFound
  | some c =>
    if !(c.user = uid) then .forbidden
    else
      .ok { a with
              comments :=
                a.comments.map
                  (fun x => if x.cid = cid then { x with content := newContent } else x) }

/-- `DELETE /:id/comments/:commentId` after the article has been found: 404
when the comment is missing, 403 unless the requester is the comment's author
or the article's author, otherwise pull the comment and save. -/
def deleteComment (a : Article) (cid uid : Nat) : CommentRes :=
  match findComment a cid with
  | none => .notFound
  | some c =>
    if !(c.user = uid) && !(a.author = uid) then .forbidden
    else .ok { a with comments := a.comments.filter (fun x => !(x.cid = cid)) }

/-! ## Bulk delete (`DELETE /bulk/delete`) -/

/-- Truthy `article.featuredImage && article.featuredImage.public_id`:
returns the image id handed to `deleteImage`, when present and non-empty. -/
def imgIdOf (a : Article) : Option String :=
  match a.featuredImage with
  | none => none
  | some fi =>
    match fi.public_id with
    | none => none
    | some s => if s.isEmpty then none else some s

/-- Side effects of the bulk delete handler, in issue order. -/
inductive DelEffect where
  | releaseImage (pid : String)
  | deleteRecords
deriving DecidableEq, Repr

/-- Result of `DELETE /bulk/delete`: HTTP status, the article collection
afterwards, and the effect trace (image releases, then the record delete). -/
structure BulkDeleteRes where
  status : Nat
  store : List Article
  trace : List DelEffect
deriving DecidableEq, Repr

/-- The ownership query `{ _id: { $in: articleIds }, author: req.user._id }`
applied to one article. -/
def ownedListed (uid : Nat) (ids : List Nat) (a : Article) : Bool :=
  ids.contains a.aid && a.author = uid

/-- `DELETE /bulk/delete`: find the requester's articles among the ids; when
the match count differs from the id count answer 403 without touching
anything, else release every matched featured image and then delete the
matched records. -/
def bulkDelete (store : List Article) (uid : Nat) (ids : List Nat) :
    BulkDeleteRes :=
  let matched := store.filter (ownedListed uid ids)
  if matched.length = ids.length then
    { status := 200
      store := store.filter (fun a => !ownedListed uid ids a)
      trace := (matched.filterMap imgIdOf).map DelEffect.releaseImage
                 ++ [DelEffect.deleteRecords] }
  else
    { status := 403, store := store, trace := [] }

/-! ## Bulk update (`PUT /bulk/update`) -/

/-- A JSON value of the `updates` object (the shapes the handler can act
on). -/
inductive JVal where
  | jb (b : Bool)
  | js (s : String)
  | jn (n : Nat)
deriving DecidableEq, Repr

/-- `const allowedUpdates = ['published', 'category']`. -/
def allowedUpdates : List String := ["published", "category"]

/-- The key filter building `filteredUpdates` from `updates`. -/
def filterUpdates (updates : List (String × JVal)) : List (String × JVal) :=
  updates.filter (fun kv => allowedUpdates.contains kv.1)

/-- Lookup of a key in a JSON object (keys assumed unique, as for a parsed
JSON body). -/
def jsonLookup (kvs : List (String × JVal)) (k : String) : Option JVal :=
  (kvs.find? (fun kv => kv.1 = k)).map (·.2)

/-- `if (filteredUpdates.published === true) filteredUpdates.publishedAt =
new Date()`: the timestamp added to the update document, when publishing. -/
def bulkStamp (fil : List (String × JVal)) (now : Nat) : Option Nat :=
  if jsonLookup fil "published" = some (.jb true) then some now else none

/-- Application of the filtered update document (plus the optional
`publishedAt` stamp) to one matched article, as `updateMany` writes it. -/
def applyBulkUpdates (fil : List (String × JVal)) (stamp : Option Nat)
    (a : Article) : Article :=
  let a1 := match jsonLookup fil "published" with
    | some (.jb b) => { a with published := b }
    | _ => a
  let a2 := match jsonLookup fil "category" with
    | some (.js s) => { a1 with category := s }
    | _ => a1
  match stamp with
  | some t => { a2 with publishedAt := some t }
  | none => a2

/-- Result of `PUT /bulk/update`: HTTP status, the collection afterwards, and
the reported `modifiedCount`. -/
structure BulkUpdateRes where
  status : Nat
  store : List Article
  modifiedCount : Nat
deriving DecidableEq, Repr

/-- `PUT /bulk/update`: drop the non-allowed keys, 400 when nothing is left,
stamp `publishedAt` when publishing, and `updateMany` over
`{ _id: { $in: articleIds }, author: req.user._id }`; `modifiedCount` counts
the matched records the write actually changed. -/
def bulkUpdate (store : List Article) (uid : Nat) (ids : List Nat)
    (updates : List (String × JVal)) (now : Nat) : BulkUpdateRes :=
  let fil := filterUpdates updates
  if fil.isEmpty then
    { status := 400, store := store, modifiedCount := 0 }
  else
    let stamp := bulkStamp fil now
    { status := 200
      store := store.map
        (fun a => if ownedListed uid ids a then applyBulkUpdates fil stamp a else a)
      modifiedCount :=
        (store.filter
          (fun a => ownedListed uid ids a && !(applyBulkUpdates fil stamp a = a))).length }

/-! ## Trending (`GET /trending`) -/

/-- MongoDB field lookup on a `likes` array element, which is a subdocument
with fields `user` and `createdAt` only. -/
def LikeEntry.mongoField (l : LikeEntry) : String → Option Nat
  | "user" => some l.user
  | "createdAt" => some l.createdAt
  | _ => none

/-- MongoDB resolution of the sort path `likes.length` on an article: collect
the `length` field of every element of the `likes` array (a descending sort
uses the maximal resolved value; the path is missing when no element has the
field). -/
def likesLengthKey (a : Article) : Option Nat :=
  (a.likes.filterMap (fun l => l.mongoField "length")).max?

/-- BSON comparison of two optional numeric sort keys for a *descending*
order: larger values sort earlier, and a missing value sorts after every
number. -/
def cmpOptNatDesc : Option Nat → Option Nat → Ordering
  | none, none => .eq
  | none, some _ => .gt
  | some _, none => .lt
  | some x, some y => compare y x

/-- The composite comparator of the trending query:
`{ views: -1, 'likes.length': -1, publishedAt: -1 }`. -/
def trendingCmp (a b : Article) : Ordering :=
  (compare b.views a.views).then
    ((cmpOptNatDesc (likesLengthKey a) (likesLengthKey b)).then
      (cmpOptNatDesc a.publishedAt b.publishedAt))

/-- Stable insertion of an article into a sorted run. -/
def insertByCmp (cmp : Article → Article → Ordering) (a : Article) :
    List Article → List Article
  | [] => [a]
  | b :: bs =>
    if cmp a b = .gt then b :: insertByCmp cmp a bs else a :: b :: bs

/-- Stable insertion sort by a comparator. -/
def sortByCmp (cmp : Article → Article → Ordering) : List Article → List Article
  | [] => []
  | a :: rest => insertByCmp cmp a (sortByCmp cmp rest)

/-- The candidate filter of the trending query:
`{ published: true, publishedAt: { $gte: dateThreshold } }`, with
`dateThreshold` = `now` minus `days` days (times are in days here; a missing
`publishedAt` never satisfies `$gte`). -/
def trendingFilter (now days : Nat) (a : Article) : Bool :=
  a.published &&
    (match a.publishedAt with
     | some t => now - days ≤ t
     | none => false)

/-- `GET /trending`: the candidate set ordered by the composite sort. -/
def trending (store : List Article) (now days : Nat) : List Article :=
  sortByCmp trendingCmp (store.filter (trendingFilter now days))

/-! ## Create and single-article update (`POST /`, `PUT /:id`) -/

/-- The update fields of `PUT /:id` that the route validates.  The handler
copies the whole request body onto the document (`Object.assign`); the
embedding covers the declared, validated fields. -/
structure UpdateBody where
  title : Option String
  content : Option String
  excerpt : Option String
  tags : Option (List String)
  category : Option String
  published : Option Bool
deriving Repr

/-- `Object.assign(article, updates)` over the validated fields. -/
def objAssign (a : Article) (u : UpdateBody) : Article :=
  { a with
      title := u.title.getD a.title
      content := u.content.getD a.content
      excerpt := (u.excerpt.map some).getD a.excerpt
      tags := u.tags.getD a.tags
      category := u.category.getD a.category
      published := u.published.getD a.published }

/-- `POST /`: build the new document (`published: published || false`,
`tags: tags || []`, `category: category || 'Other'`) and save it.  On a new
document every set path counts as modified, so the hook sees both
`isModified('content')` and `isModified('published')` true. -/
def createArticle (id : Nat) (title content : String) (excerpt : Option String)
    (authorId : Nat) (tags : List String) (category : String)
    (published : Bool) (now : Nat) : Article :=
  preSave
    { aid := id, title := title, content := content, excerpt := excerpt
      author := authorId, tags := tags, category := category
      featuredImage := none, readTime := 1, likes := [], comments := []
      published := published, publishedAt := none, views := 0, bookmarks := [] }
    true true now

/-- `PUT /:id` after the article has been found: 403 unless the requester is
the author, else assign the body and save.  Mongoose marks a path modified
exactly when the assigned value differs from the stored one. -/
def updateArticle (a : Article) (uid : Nat) (u : UpdateBody) (now : Nat) :
    Except Nat Article :=
  if !(a.author = uid) then .error 403
  else
    let a1 := objAssign a u
    .ok (preSave a1 (decide (a1.content ≠ a.content))
                    (decide (a1.published ≠ a.published)) now)

/-! ## Spec-side definitions, for comparison with the code -/

/-- Word counter for `specWordCount`: counts the transitions into maximal
non-whitespace runs. -/
def countWordsGo : List Char → Bool → Nat
  | [], _ => 0
  | c :: cs, inWord =>
    if jsIsWs c then countWordsGo cs false
    else (if inWord then 0 else 1) + countWordsGo cs true

/-- The number of whitespace-separated words of a string, as the claim words
it: the number of maximal non-whitespace runs. -/
def specWordCount (s : String) : Nat :=
  countWordsGo s.data false

/-! ## Concrete articles used by witnesses and counterexamples -/

/-- A plain article template for concrete instances. -/
def baseArticle : Article :=
  { aid := 1, title := "t", content := "c", excerpt := some "e", author := 1
    tags := [], category := "Other", featuredImage := none, readTime := 1
    likes := [], comments := [], published := false, publishedAt := none
    views := 0, bookmarks := [] }

/-! ## Helper lemmas -/

theorem jsSplitWsGo_length_pos (cs : List Char) :
    ∀ cur segs inSep, 1 ≤ (jsSplitWsGo cs cur segs inSep).length := by
  induction cs with
  | nil => intro cur segs inSep; simp [jsSplitWsGo]
  | cons c cs ih =>
    intro cur segs inSep
    simp only [jsSplitWsGo]
    split
    · split
      · exact ih _ _ _
      · exact ih _ _ _
    · exact ih _ _ _

theorem jsSplitWs_length_pos (s : String) : 1 ≤ (jsSplitWs s).length :=
  jsSplitWsGo_length_pos _ _ _ _

theorem ceilDiv_one_le (n : Nat) (h : 1 ≤ n) : 1 ≤ ceilDiv n 200 := by
  unfold ceilDiv
  rw [Nat.one_le_div_iff (by norm_num)]
  omega

/-- The save hook is the identity when neither `content` nor `published` was
modified. -/
theorem preSave_id (a : Article) (now : Nat) : preSave a false false now = a := by
  simp [preSave]

/-- The save hook never touches `publishedAt` when it is already set. -/
theorem preSave_publishedAt_stable (a : Article) (t : Nat)
    (h : a.publishedAt = some t) (mc mp : Bool) (now : Nat) :
    (preSave a mc mp now).publishedAt = some t := by
  unfold preSave
  dsimp only
  simp only [apply_ite Article.publishedAt]
  simp [h]

/-- The save hook's `readTime` after a content-modifying save. -/
theorem preSave_readTime (a : Article) (mp : Bool) (now : Nat) :
    (preSave a true mp now).readTime = ceilDiv (jsSplitWs a.content).length 200 := by
  unfold preSave
  dsimp only
  simp only [apply_ite Article.readTime]
  simp

/-! ## Claim C3 — readTime derivation -/

/-- 200 words of one letter each, preceded by a single space. -/
def paddedContent : String := String.join (List.replicate 200 " a")

/-- An article whose content is `paddedContent`. -/
def paddedArticle : Article := { baseArticle with content := paddedContent }

/-- C3 is refuted at `paddedContent`: the content has 200 whitespace-separated
words, so the claimed formula `max(1, ceil(wordCount/200))` gives 1, but the
hook computes `ceil` over the length of the JavaScript split — 201 segments
because of the leading whitespace — and stores `readTime = 2`. -/
theorem C3_readTime_counterexample :
    specWordCount paddedContent = 200
    ∧ Nat.max 1 (ceilDiv (specWordCount paddedContent) 200) = 1
    ∧ (preSave paddedArticle true false 0).readTime = 2 := by
  refine ⟨by decide, by decide, ?_⟩
  rw [preSave_readTime]
  decide

/-- C3 (amended): after every content-changing save,
`readTime = max(1, ceil(splitCount / 200))`, where `splitCount` is the number
of segments of the JavaScript whitespace split of `content` (the word count,
plus an empty segment for leading and for trailing whitespace); in particular
`readTime ≥ 1` always. -/
theorem C3_readTime_formula (a : Article) (mp : Bool) (now : Nat) :
    (preSave a true mp now).readTime
        = Nat.max 1 (ceilDiv (jsSplitWs a.content).length 200)
    ∧ 1 ≤ (preSave a true mp now).readTime := by
  have h2 : 1 ≤ ceilDiv (jsSplitWs a.content).length 200 :=
    ceilDiv_one_le _ (jsSplitWs_length_pos a.content)
  rw [preSave_readTime]
  exact ⟨(Nat.max_eq_right h2).symm, h2⟩

/-! ## Claim C8 — excerpt derivation -/

/-- 301 copies of `a` as content, no excerpt given. -/
def longArticle : Article :=
  { baseArticle with content := String.mk (List.replicate 301 'a'), excerpt := none }

/-- Exactly 300 copies of `a` as content, no excerpt given. -/
def exactArticle : Article :=
  { baseArticle with content := String.mk (List.replicate 300 'a'), excerpt := none }

/-- C8 fails on the code: for a 301-character content the derived excerpt is
the 300-character stripped prefix plus `'...'` — 303 characters, exceeding the
schema's own `maxlength` of 300; and for a content whose stripped text is
exactly 300 characters (nothing truncated) the ellipsis is appended anyway. -/
theorem C8_excerpt_overflow :
    (preSave longArticle true false 0).excerpt
        = some (String.mk (List.replicate 300 'a') ++ "...")
    ∧ (String.mk (List.replicate 300 'a') ++ "...").length = 303
    ∧ excerptMaxlength < (String.mk (List.replicate 300 'a') ++ "...").length
    ∧ (stripMd exactArticle.content).length = 300
    ∧ (preSave exactArticle true false 0).excerpt
        = some (String.mk (List.replicate 300 'a') ++ "...") := by
  refine ⟨?_, by decide, by decide, by decide, ?_⟩ <;> decide

/-! ## Claim C10 — like/bookmark toggles touch only their own field -/

/-- C10: the like toggle changes only `likes` and the bookmark toggle only
`bookmarks`; every other field — in particular `content`, `published`,
`readTime`, `excerpt` and `publishedAt`, which the save hook could rewrite —
is unchanged, because the hook sees no content/published modification. -/
theorem C10_toggle_frame (a : Article) (u now : Nat) :
    ((likeToggle a u now).title = a.title
      ∧ (likeToggle a u now).content = a.content
      ∧ (likeToggle a u now).excerpt = a.excerpt
      ∧ (likeToggle a u now).author = a.author
      ∧ (likeToggle a u now).tags = a.tags
      ∧ (likeToggle a u now).category = a.category
      ∧ (likeToggle a u now).featuredImage = a.featuredImage
      ∧ (likeToggle a u now).readTime = a.readTime
      ∧ (likeToggle a u now).comments = a.comments
      ∧ (likeToggle a u now).published = a.published
      ∧ (likeToggle a u now).publishedAt = a.publishedAt
      ∧ (likeToggle a u now).views = a.views
      ∧ (likeToggle a u now).bookmarks = a.bookmarks)
    ∧ ((bookmarkToggle a u now).title = a.title
      ∧ (bookmarkToggle a u now).content = a.content
      ∧ (bookmarkToggle a u now).excerpt = a.excerpt
      ∧ (bookmarkToggle a u now).author = a.author
      ∧ (bookmarkToggle a u now).tags = a.tags
      ∧ (bookmarkToggle a u now).category = a.category
      ∧ (bookmarkToggle a u now).featuredImage = a.featuredImage
      ∧ (bookmarkToggle a u now).readTime = a.readTime
      ∧ (bookmarkToggle a u now).comments = a.comments
      ∧ (bookmarkToggle a u now).published = a.published
      ∧ (bookmarkToggle a u now).publishedAt = a.publishedAt
      ∧ (bookmarkToggle a u now).views = a.views
      ∧ (bookmarkToggle a u now).likes = a.likes) := by
  unfold likeToggle bookmarkToggle
  rw [preSave_id, preSave_id]
  exact ⟨⟨rfl, rfl, rfl, rfl, rfl, rfl, rfl, rfl, rfl, rfl, rfl, rfl, rfl⟩,
    ⟨rfl, rfl, rfl, rfl, rfl, rfl, rfl, rfl, rfl, rfl, rfl, rfl, rfl⟩⟩

/-! ## Claim C1 — publishedAt lifecycle -/

/-- A published article with `publishedAt` stamped at time 100. -/
def stampedArticle : Article :=
  { baseArticle with aid := 1, author := 5, published := true, publishedAt := some 100 }

/-- A draft being published for the first time. -/
def freshPublish : Article :=
  { baseArticle with aid := 2, author := 5, published := true, publishedAt := none }

/-- C1 fails on the code (code bug): the save hook does stamp `publishedAt`
exactly at the first false→true transition and never rewrites a stamped value
(first two conjuncts), but the bulk update path writes
`publishedAt = new Date()` into every matched record whenever
`published: true` is requested — here the already-stamped value 100 is
overwritten with the current time 200. -/
theorem C1_bulk_overwrites_publishedAt :
    (∀ (mc mp : Bool) (now : Nat),
        (preSave stampedArticle mc mp now).publishedAt = some 100)
    ∧ (preSave freshPublish true true 50).publishedAt = some 50
    ∧ stampedArticle.publishedAt = some 100
    ∧ (bulkUpdate [stampedArticle] 5 [1] [("published", .jb true)] 200).store.map
        (·.publishedAt) = [some 200] := by
  refine ⟨?_, by decide, by decide, by decide⟩
  intro mc mp now
  exact preSave_publishedAt_stable stampedArticle 100 rfl mc mp now

/-! ## Claim C4 — visibility of drafts in list and detail -/

/-- A draft (unpublished article) authored by user 7. -/
def draftArticle : Article :=
  { baseArticle with aid := 4, author := 7, published := false }

/-- C4 is refuted: the claim says the general list applies the same
visibility filter as the detail route (`published ∨ requester is author`),
but the list query is `{ published: true }` regardless of the requester — the
author's own draft, visible per the claimed filter, is excluded from the
author's own general-feed request. -/
theorem C4_list_filter_counterexample :
    specVisible (some 7) draftArticle = true
    ∧ listMatches noFilters draftArticle = false := by
  decide

/-- C4 (amended): the detail route applies exactly the visibility filter
`published = true ∨ requester is the author` — an invisible article yields a
404 `notFound`, not a degraded object — while the general list filters on
`published = true` only, independently of the requester: a draft never
appears in the general list, not even to its author (drafts are listed by the
separate my-articles endpoint). -/
theorem C4_visibility (store : List Article) (id : Nat) (requester : Option Nat)
    (a : Article) (hfind : store.find? (fun x => x.aid = id) = some a) :
    ((getArticle store id requester).isOk = true ↔ specVisible requester a = true)
    ∧ (specVisible requester a = false → getArticle store id requester = .notFound)
    ∧ (specVisible requester a = true →
        getArticle store id requester = .ok { a with views := a.views + 1 })
    ∧ (∀ (p : ListParams) (b : Article), b.published = false →
        listMatches p b = false) := by
  have hmain : getArticle store id requester =
      if specVisible requester a = true then .ok { a with views := a.views + 1 }
      else .notFound := by
    unfold getArticle specVisible
    rw [hfind]
    dsimp only
    cases hpub : a.published with
    | true => simp
    | false =>
      cases requester with
      | none => simp
      | some u =>
        by_cases hu : a.author = u <;> simp [hu]
  refine ⟨?_, ?_, ?_, ?_⟩
  · rw [hmain]
    by_cases hv : specVisible requester a = true <;> simp [hv, DetailRes.isOk]
  · intro hv
    rw [hmain]
    simp [hv]
  · intro hv
    rw [hmain]
    simp [hv]
  · intro p b hb
    unfold listMatches
    simp [hb]

/-- Witness for `C4_visibility` at a one-article store: the stored draft is
found, and the author sees it in detail (with the view counter bumped). -/
theorem C4_visibility_witness :
    [draftArticle].find? (fun x => x.aid = 4) = some draftArticle
    ∧ (((getArticle [draftArticle] 4 (some 7)).isOk = true
          ↔ specVisible (some 7) draftArticle = true)
      ∧ (specVisible (some 7) draftArticle = false →
          getArticle [draftArticle] 4 (some 7) = .notFound)
      ∧ (specVisible (some 7) draftArticle = true →
          getArticle [draftArticle] 4 (some 7)
            = .ok { draftArticle with views := draftArticle.views + 1 })
      ∧ (∀ (p : ListParams) (b : Article), b.published = false →
          listMatches p b = false)) :=
  ⟨by decide, C4_visibility [draftArticle] 4 (some 7) draftArticle (by decide)⟩

/-! ## Claim C9 — comment edit/delete permissions -/

/-- C9: with the comment found on the article, deletion succeeds exactly for
the comment's author or the article's author and answers 403 to every other
authenticated requester; editing succeeds exactly for the comment's author —
in particular the article's author cannot edit someone else's comment. -/
theorem C9_comment_permissions (a : Article) (cid uid : Nat) (nc : String)
    (c : CommentEntry) (hfind : findComment a cid = some c) :
    ((deleteComment a cid uid).isOk = true ↔ (uid = c.user ∨ uid = a.author))
    ∧ (deleteComment a cid uid = .forbidden ↔ ¬(uid = c.user ∨ uid = a.author))
    ∧ ((updateComment a cid uid nc).isOk = true ↔ uid = c.user)
    ∧ (updateComment a cid uid nc = .forbidden ↔ ¬uid = c.user) := by
  unfold deleteComment updateComment
  rw [hfind]
  by_cases h1 : c.user = uid <;> by_cases h2 : a.author = uid <;>
    simp [h1, h2, CommentRes.isOk, eq_comm] <;> omega

/-- Witness for `C9_comment_permissions`: user 3's comment on user 2's
article; requester 2 (the article author) may delete but not edit. -/
theorem C9_comment_permissions_witness :
    findComment
        { baseArticle with aid := 9, author := 2
                           comments := [⟨1, 3, "hi", 0⟩] } 1 = some ⟨1, 3, "hi", 0⟩
    ∧ (((deleteComment
          { baseArticle with aid := 9, author := 2
                             comments := [⟨1, 3, "hi", 0⟩] } 1 2).isOk = true
            ↔ (2 = (⟨1, 3, "hi", 0⟩ : CommentEntry).user
                ∨ 2 = ({ baseArticle with aid := 9, author := 2
                                          comments := [⟨1, 3, "hi", 0⟩] } : Article).author))
      ∧ (deleteComment
          { baseArticle with aid := 9, author := 2
                             comments := [⟨1, 3, "hi", 0⟩] } 1 2 = .forbidden
            ↔ ¬(2 = (⟨1, 3, "hi", 0⟩ : CommentEntry).user
                ∨ 2 = ({ baseArticle with aid := 9, author := 2
                                          comments := [⟨1, 3, "hi", 0⟩] } : Article).author))
      ∧ ((updateComment
          { baseArticle with aid := 9, author := 2
                             comments := [⟨1, 3, "hi", 0⟩] } 1 2 "x").isOk = true
            ↔ 2 = (⟨1, 3, "hi", 0⟩ : CommentEntry).user)
      ∧ (updateComment
          { baseArticle with aid := 9, author := 2
                             comments := [⟨1, 3, "hi", 0⟩] } 1 2 "x" = .forbidden
            ↔ ¬2 = (⟨1, 3, "hi", 0⟩ : CommentEntry).user)) :=
  ⟨by decide,
   C9_comment_permissions
     { baseArticle with aid := 9, author := 2, comments := [⟨1, 3, "hi", 0⟩] }
     1 2 "x" ⟨1, 3, "hi", 0⟩ (by decide)⟩

/-! ## Claim C7 — trending window and ordering -/

/-- Published 3 days before `now = 100`, 10 views, 5 likes. -/
def heavilyLiked : Article :=
  { baseArticle with aid := 21, author := 1, published := true
                     publishedAt := some 97, views := 10
                     likes := [⟨11, 0⟩, ⟨12, 0⟩, ⟨13, 0⟩, ⟨14, 0⟩, ⟨15, 0⟩] }

/-- Published 1 day before `now = 100`, 10 views, no likes. -/
def unliked : Article :=
  { baseArticle with aid := 22, author := 1, published := true
                     publishedAt := some 99, views := 10, likes := [] }

/-- Published 8 days before `now = 100` (outside the 7-day window). -/
def eightDaysOld : Article :=
  { baseArticle with aid := 23, author := 1, published := true
                     publishedAt := some 92, views := 1000 }

/-- Published 6 days before `now = 100` (inside the 7-day window). -/
def sixDaysOld : Article :=
  { baseArticle with aid := 24, author := 1, published := true
                     publishedAt := some 94, views := 0 }

/-- C7 fails on the code (code bug): the candidate window is right — the
8-day-old article is excluded at `days = 7` and the 6-day-old one included —
but the secondary sort key `'likes.length'` resolves to a missing field in
MongoDB (the like subdocuments have only `user` and `createdAt`), so like
volume never influences the order: with equal views, the article with 5 likes
sorts *after* the more recent article with 0 likes, where the claimed
composite sort would put it first. -/
theorem C7_trending_ignores_like_volume :
    (trending [heavilyLiked, unliked, eightDaysOld, sixDaysOld] 100 7).map (·.aid)
        = [unliked.aid, heavilyLiked.aid, sixDaysOld.aid]
    ∧ heavilyLiked.views = unliked.views
    ∧ likesCount heavilyLiked = 5
    ∧ likesCount unliked = 0
    ∧ likesLengthKey heavilyLiked = none
    ∧ likesLengthKey unliked = none
    ∧ trendingFilter 100 7 eightDaysOld = false
    ∧ trendingFilter 100 7 sixDaysOld = true := by
  decide

/-! ## Claim C6 — bulk update is partial-permissive -/

/-- C6: over `[A, B]` where the requester owns `A` but not `B`, bulk update
answers 200, applies the filtered updates to `A` only, leaves `B` untouched
(silent exclusion, no batch failure), and reports `modifiedCount = 1`; and a
key outside `{published, category}` anywhere in the updates object is dropped
without any effect on the result. -/
theorem C6_bulk_update_partial_permissive (uid now : Nat)
    (updates : List (String × JVal)) (A B : Article)
    (hfil : (filterUpdates updates).isEmpty = false)
    (hA : A.author = uid) (hB : ¬B.author = uid)
    (hchange :
      applyBulkUpdates (filterUpdates updates)
        (bulkStamp (filterUpdates updates) now) A ≠ A) :
    (bulkUpdate [A, B] uid [A.aid, B.aid] updates now).status = 200
    ∧ (bulkUpdate [A, B] uid [A.aid, B.aid] updates now).store
        = [applyBulkUpdates (filterUpdates updates)
            (bulkStamp (filterUpdates updates) now) A, B]
    ∧ (bulkUpdate [A, B] uid [A.aid, B.aid] updates now).modifiedCount = 1
    ∧ (∀ (store : List Article) (ids : List Nat)
        (us₁ us₂ : List (String × JVal)) (kv : String × JVal),
        kv.1 ∉ allowedUpdates →
        bulkUpdate store uid ids (us₁ ++ kv :: us₂) now
          = bulkUpdate store uid ids (us₁ ++ us₂) now) := by
  have hselA : ownedListed uid [A.aid, B.aid] A = true := by
    simp [ownedListed, hA]
  have hselB : ownedListed uid [A.aid, B.aid] B = false := by
    simp [ownedListed, hB]
  refine ⟨?_, ?_, ?_, ?_⟩
  · simp [bulkUpdate, hfil]
  · simp [bulkUpdate, hfil, hselA, hselB]
  · simp [bulkUpdate, hfil, hselA, hselB, hchange]
  · intro store ids us₁ us₂ kv hkv
    have hdrop : filterUpdates (us₁ ++ kv :: us₂) = filterUpdates (us₁ ++ us₂) := by
      unfold filterUpdates
      simp [List.filter_append, List.filter_cons, hkv]
    simp only [bulkUpdate, hdrop]

/-- Witness for `C6_bulk_update_partial_permissive`: publishing `[A, B]` with
an extra unknown `title` key, where `B` belongs to author 6, as requester 5. -/
theorem C6_bulk_update_witness :
    (filterUpdates [("published", JVal.jb true), ("title", JVal.js "x")]).isEmpty
        = false
    ∧ ({ baseArticle with aid := 31, author := 5 } : Article).author = 5
    ∧ ¬({ baseArticle with aid := 32, author := 6 } : Article).author = 5
    ∧ applyBulkUpdates
        (filterUpdates [("published", JVal.jb true), ("title", JVal.js "x")])
        (bulkStamp
          (filterUpdates [("published", JVal.jb true), ("title", JVal.js "x")]) 70)
        { baseArticle with aid := 31, author := 5 }
        ≠ { baseArticle with aid := 31, author := 5 }
    ∧ (bulkUpdate
        [{ baseArticle with aid := 31, author := 5 },
         { baseArticle with aid := 32, author := 6 }] 5 [31, 32]
        [("published", JVal.jb true), ("title", JVal.js "x")] 70).status = 200
    ∧ (bulkUpdate
        [{ baseArticle with aid := 31, author := 5 },
         { baseArticle with aid := 32, author := 6 }] 5 [31, 32]
        [("published", JVal.jb true), ("title", JVal.js "x")] 70).modifiedCount = 1 :=
  ⟨by decide, by decide, by decide, by decide,
   (C6_bulk_update_partial_permissive 5 70
      [("published", JVal.jb true), ("title", JVal.js "x")]
      { baseArticle with aid := 31, author := 5 }
      { baseArticle with aid := 32, author := 6 }
      (by decide) (by decide) (by decide) (by decide)).1,
   (C6_bulk_update_partial_permissive 5 70
      [("published", JVal.jb true), ("title", JVal.js "x")]
      { baseArticle with aid := 31, author := 5 }
      { baseArticle with aid := 32, author := 6 }
      (by decide) (by decide) (by decide) (by decide)).2.2.1⟩

/-! ## Claim C2 — like and bookmark toggles are involutions -/

theorem length_filter_not_add_countP {α : Type} (L : List α) (p : α → Bool) :
    (L.filter (fun x => !p x)).length + L.countP p = L.length := by
  induction L with
  | nil => rfl
  | cons x xs ih =>
    by_cases h : p x = true <;> simp [List.filter_cons, List.countP_cons, h] <;> omega

theorem likeToggle_likes (a : Article) (u t : Nat) :
    (likeToggle a u t).likes =
      if a.likes.any (fun l => l.user = u) then
        a.likes.filter (fun l => !(l.user = u))
      else a.likes ++ [⟨u, t⟩] := by
  unfold likeToggle
  dsimp only
  rw [preSave_id]

theorem bookmarkToggle_bookmarks (a : Article) (u t : Nat) :
    (bookmarkToggle a u t).bookmarks =
      if a.bookmarks.contains u then
        a.bookmarks.filter (fun x => !(x = u))
      else a.bookmarks ++ [u] := by
  unfold bookmarkToggle
  dsimp only
  rw [preSave_id]

theorem likeToggle_likes_of_present (a : Article) (u t : Nat)
    (h : a.likes.any (fun l => l.user = u) = true) :
    (likeToggle a u t).likes = a.likes.filter (fun l => !(l.user = u)) := by
  rw [likeToggle_likes, if_pos h]

theorem likeToggle_likes_of_absent (a : Article) (u t : Nat)
    (h : a.likes.any (fun l => l.user = u) = false) :
    (likeToggle a u t).likes = a.likes ++ [⟨u, t⟩] := by
  rw [likeToggle_likes, h]
  rfl

/-- No entry of the filtered like list belongs to `u`. -/
theorem filter_likes_no_user (L : List LikeEntry) (u : Nat) :
    (L.filter (fun l => !(l.user = u))).any (fun l => l.user = u) = false := by
  rw [List.any_eq_false]
  intro x hx
  have hmem := List.mem_filter.mp hx
  simpa using hmem.2

/-- Filtering out `u`'s entries is the identity when `u` has none. -/
theorem filter_likes_id (L : List LikeEntry) (u : Nat)
    (h : L.any (fun l => l.user = u) = false) :
    L.filter (fun l => !(l.user = u)) = L := by
  rw [List.filter_eq_self]
  intro x hx
  rw [List.any_eq_false] at h
  simpa using h x hx

/-- Filtering `u` out of a bookmark list leaves no occurrence of `u`. -/
theorem filter_bm_not_contains (L : List Nat) (u : Nat) :
    (L.filter (fun x => !(x = u))).contains u = false := by
  simp

/-- Filtering `u` out of a bookmark list without `u` is the identity. -/
theorem filter_bm_id (L : List Nat) (u : Nat) (h : ¬u ∈ L) :
    L.filter (fun x => !(x = u)) = L := by
  rw [List.filter_eq_self]
  intro x hx
  have hxu : ¬x = u := fun hxu => h (hxu ▸ hx)
  simp [hxu]

/-- The like half of the involution claim. -/
theorem like_involution (a : Article) (u t1 t2 : Nat)
    (hl : a.likes.countP (fun l => l.user = u) ≤ 1) :
    likesCount (likeToggle (likeToggle a u t1) u t2) = likesCount a
    ∧ isLiked (likeToggle (likeToggle a u t1) u t2) u = isLiked a u
    ∧ (isLiked a u = false → (likeToggle a u t1).likes = a.likes ++ [⟨u, t1⟩])
    ∧ (isLiked a u = true →
        (likeToggle a u t1).likes = a.likes.filter (fun l => !(l.user = u))
        ∧ likesCount (likeToggle a u t1) + 1 = likesCount a
        ∧ isLiked (likeToggle a u t1) u = false) := by
  have hlen := length_filter_not_add_countP a.likes (fun l => l.user = u)
  cases hny : a.likes.any (fun l => l.user = u) with
  | false =>
    have h1 := likeToggle_likes_of_absent a u t1 hny
    have hany1 : (likeToggle a u t1).likes.any (fun l => l.user = u) = true := by
      rw [h1]
      simp
    have h2 := likeToggle_likes_of_present (likeToggle a u t1) u t2 hany1
    have h2' : (likeToggle (likeToggle a u t1) u t2).likes = a.likes := by
      rw [h2, h1, List.filter_append, filter_likes_id a.likes u hny]
      simp
    refine ⟨by rw [likesCount, h2', likesCount],
            by rw [isLiked, h2', isLiked], fun _ => h1, ?_⟩
    intro hcontra
    rw [isLiked, hny] at hcontra
    exact absurd hcontra (by simp)
  | true =>
    have hcnt : a.likes.countP (fun l => l.user = u) = 1 := by
      obtain ⟨x, hx, hpx⟩ := List.any_eq_true.mp hny
      have : 0 < a.likes.countP (fun l => l.user = u) :=
        List.countP_pos_iff.mpr ⟨x, hx, hpx⟩
      omega
    have h1 := likeToggle_likes_of_present a u t1 hny
    have hany1 : (likeToggle a u t1).likes.any (fun l => l.user = u) = false := by
      rw [h1]
      exact filter_likes_no_user a.likes u
    have h2 := likeToggle_likes_of_absent (likeToggle a u t1) u t2 hany1
    refine ⟨?_, ?_, ?_, ?_⟩
    · rw [likesCount, h2, List.length_append, h1, likesCount]
      simp only [List.length_singleton]
      omega
    · rw [isLiked, h2, List.any_append, hany1, isLiked, hny]
      simp
    · intro hcontra
      rw [isLiked, hny] at hcontra
      exact absurd hcontra (by simp)
    · intro _
      refine ⟨h1, ?_, ?_⟩
      · rw [likesCount, h1, likesCount]
        omega
      · rw [isLiked, h1]
        exact filter_likes_no_user a.likes u

/-- The bookmark half of the involution claim. -/
theorem bookmark_involution (a : Article) (u t3 t4 : Nat)
    (hb : a.bookmarks.countP (fun x => x = u) ≤ 1) :
    bookmarksCount (bookmarkToggle (bookmarkToggle a u t3) u t4)
        = bookmarksCount a
    ∧ isBookmarked (bookmarkToggle (bookmarkToggle a u t3) u t4) u
        = isBookmarked a u
    ∧ (isBookmarked a u = false →
        (bookmarkToggle a u t3).bookmarks = a.bookmarks ++ [u])
    ∧ (isBookmarked a u = true →
        (bookmarkToggle a u t3).bookmarks = a.bookmarks.filter (fun x => !(x = u))
        ∧ bookmarksCount (bookmarkToggle a u t3) + 1 = bookmarksCount a
        ∧ isBookmarked (bookmarkToggle a u t3) u = false) := by
  have hlen := length_filter_not_add_countP a.bookmarks (fun x => x = u)
  cases hbm : a.bookmarks.contains u with
  | false =>
    have hmem : ¬u ∈ a.bookmarks := by simpa using hbm
    have b1 : (bookmarkToggle a u t3).bookmarks = a.bookmarks ++ [u] := by
      rw [bookmarkToggle_bookmarks, hbm]
      rfl
    have hbm1 : (bookmarkToggle a u t3).bookmarks.contains u = true := by
      rw [b1]
      simp
    have b2 : (bookmarkToggle (bookmarkToggle a u t3) u t4).bookmarks
        = a.bookmarks := by
      rw [bookmarkToggle_bookmarks, hbm1, if_pos rfl, b1, List.filter_append,
        filter_bm_id a.bookmarks u hmem]
      simp
    refine ⟨by rw [bookmarksCount, b2, bookmarksCount],
            by rw [isBookmarked, b2, isBookmarked], fun _ => b1, ?_⟩
    intro hcontra
    rw [isBookmarked, hbm] at hcontra
    exact absurd hcontra (by simp)
  | true =>
    have hmem : u ∈ a.bookmarks := by simpa using hbm
    have hcnt : a.bookmarks.countP (fun x => x = u) = 1 := by
      have : 0 < a.bookmarks.countP (fun x => x = u) :=
        List.countP_pos_iff.mpr ⟨u, hmem, by simp⟩
      omega
    have b1 : (bookmarkToggle a u t3).bookmarks
        = a.bookmarks.filter (fun x => !(x = u)) := by
      rw [bookmarkToggle_bookmarks, hbm, if_pos rfl]
    have hbm1 : (bookmarkToggle a u t3).bookmarks.contains u = false := by
      rw [b1]
      exact filter_bm_not_contains a.bookmarks u
    have b2 : (bookmarkToggle (bookmarkToggle a u t3) u t4).bookmarks
        = a.bookmarks.filter (fun x => !(x = u)) ++ [u] := by
      rw [bookmarkToggle_bookmarks, hbm1, ← b1]
      rfl
    refine ⟨?_, ?_, ?_, ?_⟩
    · rw [bookmarksCount, b2, List.length_append, bookmarksCount]
      simp only [List.length_singleton]
      omega
    · rw [isBookmarked, b2, isBookmarked, hbm]
      simp
    · intro hcontra
      rw [isBookmarked, hbm] at hcontra
      exact absurd hcontra (by simp)
    · intro _
      refine ⟨b1, ?_, ?_⟩
      · rw [bookmarksCount, b1, bookmarksCount]
        omega
      · rw [isBookmarked, b1]
        exact filter_bm_not_contains a.bookmarks u

/-- C2: like and bookmark toggles are involutions on like/bookmark state and
count (under the schema invariant of at most one entry per user), and a
single invocation flips membership — removing the user's entry when present,
appending exactly one entry when absent. -/
theorem C2_toggle_involution (a : Article) (u t1 t2 t3 t4 : Nat)
    (hl : a.likes.countP (fun l => l.user = u) ≤ 1)
    (hb : a.bookmarks.countP (fun x => x = u) ≤ 1) :
    likesCount (likeToggle (likeToggle a u t1) u t2) = likesCount a
    ∧ isLiked (likeToggle (likeToggle a u t1) u t2) u = isLiked a u
    ∧ (isLiked a u = false → (likeToggle a u t1).likes = a.likes ++ [⟨u, t1⟩])
    ∧ (isLiked a u = true →
        (likeToggle a u t1).likes = a.likes.filter (fun l => !(l.user = u))
        ∧ likesCount (likeToggle a u t1) + 1 = likesCount a
        ∧ isLiked (likeToggle a u t1) u = false)
    ∧ bookmarksCount (bookmarkToggle (bookmarkToggle a u t3) u t4)
        = bookmarksCount a
    ∧ isBookmarked (bookmarkToggle (bookmarkToggle a u t3) u t4) u
        = isBookmarked a u
    ∧ (isBookmarked a u = false →
        (bookmarkToggle a u t3).bookmarks = a.bookmarks ++ [u])
    ∧ (isBookmarked a u = true →
        (bookmarkToggle a u t3).bookmarks = a.bookmarks.filter (fun x => !(x = u))
        ∧ bookmarksCount (bookmarkToggle a u t3) + 1 = bookmarksCount a
        ∧ isBookmarked (bookmarkToggle a u t3) u = false) := by
  obtain ⟨l1, l2, l3, l4⟩ := like_involution a u t1 t2 hl
  obtain ⟨b1, b2, b3, b4⟩ := bookmark_involution a u t3 t4 hb
  exact ⟨l1, l2, l3, l4, b1, b2, b3, b4⟩

/-- Witness for `C2_toggle_involution`: user 3 already likes the article and
has not bookmarked it. -/
theorem C2_toggle_involution_witness :
    ({ baseArticle with likes := [⟨3, 5⟩], bookmarks := [4] } : Article).likes.countP
        (fun l => l.user = 3) ≤ 1
    ∧ ({ baseArticle with likes := [⟨3, 5⟩], bookmarks := [4] } : Article).bookmarks.countP
        (fun x => x = 3) ≤ 1
    ∧ likesCount
        (likeToggle
          (likeToggle { baseArticle with likes := [⟨3, 5⟩], bookmarks := [4] } 3 8) 3 9)
        = likesCount { baseArticle with likes := [⟨3, 5⟩], bookmarks := [4] }
    ∧ isBookmarked
        (bookmarkToggle
          (bookmarkToggle { baseArticle with likes := [⟨3, 5⟩], bookmarks := [4] } 3 8) 3 9) 3
        = isBookmarked { baseArticle with likes := [⟨3, 5⟩], bookmarks := [4] } 3 :=
  ⟨by decide, by decide,
   (C2_toggle_involution { baseArticle with likes := [⟨3, 5⟩], bookmarks := [4] }
      3 8 9 8 9 (by decide) (by decide)).1,
   (C2_toggle_involution { baseArticle with likes := [⟨3, 5⟩], bookmarks := [4] }
      3 8 9 8 9 (by decide) (by decide)).2.2.2.2.2.1⟩

/-! ## Claim C5 — bulk delete is all-or-nothing -/

/-- When the bulk delete ownership query matches as many articles as there
are requested ids (the route's success condition), every requested id
resolves to a distinct article owned by the requester. -/
theorem bulkDelete_success_covers (store : List Article) (uid : Nat)
    (ids : List Nat) (hnd : (store.map (·.aid)).Nodup)
    (hlen : (store.filter (ownedListed uid ids)).length = ids.length) :
    ∀ id ∈ ids, ∃ a ∈ store, a.aid = id ∧ a.author = uid := by
  intro id hid
  have hsub : List.Sublist (store.filter (ownedListed uid ids)) store :=
    List.filter_sublist store
  have hmapnd : ((store.filter (ownedListed uid ids)).map (·.aid)).Nodup :=
    hnd.sublist (hsub.map _)
  have hsubF : ((store.filter (ownedListed uid ids)).map (·.aid)).toFinset
      ⊆ ids.toFinset := by
    intro x hx
    rw [List.mem_toFinset] at hx ⊢
    obtain ⟨a, ha, rfl⟩ := List.mem_map.mp hx
    have hsel := (List.mem_filter.mp ha).2
    simp only [ownedListed, Bool.and_eq_true] at hsel
    simpa using hsel.1
  have hcardS : ((store.filter (ownedListed uid ids)).map (·.aid)).toFinset.card
      = ids.length := by
    rw [List.toFinset_card_of_nodup hmapnd, List.length_map]
    exact hlen
  have hcardT : ids.toFinset.card ≤ ids.length := ids.toFinset_card_le
  have heq : ((store.filter (ownedListed uid ids)).map (·.aid)).toFinset
      = ids.toFinset :=
    Finset.eq_of_subset_of_card_le hsubF (by omega)
  have hidS : id ∈ (store.filter (ownedListed uid ids)).map (·.aid) := by
    rw [← List.mem_toFinset, heq, List.mem_toFinset]
    exact hid
  obtain ⟨a, ha, haid⟩ := List.mem_map.mp hidS
  have hmf := List.mem_filter.mp ha
  have hsel := hmf.2
  simp only [ownedListed, Bool.and_eq_true] at hsel
  exact ⟨a, hmf.1, haid, by simpa using hsel.2⟩

/-- C5: bulk delete is all-or-nothing with respect to authorization — if some
requested id resolves to no article owned by the requester, the whole call
answers 403 and neither the collection nor any image is touched; on success
every requested id resolved to an owned article, every targeted article is
gone from the collection, and the effect trace releases each targeted
article's stored image before the single record-deletion effect. -/
theorem C5_bulk_delete_all_or_nothing (store : List Article) (uid : Nat)
    (ids : List Nat) (hnd : (store.map (·.aid)).Nodup) :
    ((∃ id ∈ ids, ∀ a ∈ store, a.aid = id → ¬a.author = uid) →
      (bulkDelete store uid ids).status = 403
      ∧ (bulkDelete store uid ids).store = store
      ∧ (bulkDelete store uid ids).trace = [])
    ∧ ((bulkDelete store uid ids).status = 200 →
      (∀ id ∈ ids, ∃ a ∈ store, a.aid = id ∧ a.author = uid)
      ∧ (∀ a ∈ store, a.aid ∈ ids → ¬a ∈ (bulkDelete store uid ids).store)
      ∧ (bulkDelete store uid ids).trace
          = ((store.filter (ownedListed uid ids)).filterMap imgIdOf).map
              DelEffect.releaseImage ++ [DelEffect.deleteRecords]
      ∧ (∀ a ∈ store, a.aid ∈ ids → ∀ pid, imgIdOf a = some pid →
          DelEffect.releaseImage pid ∈
            ((store.filter (ownedListed uid ids)).filterMap imgIdOf).map
              DelEffect.releaseImage)) := by
  by_cases hlen : (store.filter (ownedListed uid ids)).length = ids.length
  · have hres : bulkDelete store uid ids =
        { status := 200
          store := store.filter (fun a => !ownedListed uid ids a)
          trace := ((store.filter (ownedListed uid ids)).filterMap imgIdOf).map
                     DelEffect.releaseImage ++ [DelEffect.deleteRecords] } := by
      unfold bulkDelete
      rw [if_pos hlen]
    have hcov := bulkDelete_success_covers store uid ids hnd hlen
    have howned : ∀ a ∈ store, a.aid ∈ ids → ownedListed uid ids a = true := by
      intro a ha haid
      obtain ⟨b, hb, hbaid, hbauth⟩ := hcov a.aid haid
      have hba : b = a := List.inj_on_of_nodup_map hnd hb ha hbaid
      simp [ownedListed, haid, hba ▸ hbauth]
    constructor
    · rintro ⟨id, hid, hbad⟩
      obtain ⟨a, ha, haid, hauth⟩ := hcov id hid
      exact absurd hauth (hbad a ha haid)
    · intro _
      refine ⟨hcov, ?_, by rw [hres], ?_⟩
      · intro a ha haid hmem
        rw [hres] at hmem
        have := (List.mem_filter.mp hmem).2
        rw [howned a ha haid] at this
        exact absurd this (by simp)
      · intro a ha haid pid hpid
        have hamatch : a ∈ store.filter (ownedListed uid ids) :=
          List.mem_filter.mpr ⟨ha, howned a ha haid⟩
        exact List.mem_map.mpr
          ⟨pid, List.mem_filterMap.mpr ⟨a, hamatch, hpid⟩, rfl⟩
  · have hres : bulkDelete store uid ids =
        { status := 403, store := store, trace := [] } := by
      unfold bulkDelete
      rw [if_neg hlen]
    constructor
    · intro _
      rw [hres]
      exact ⟨rfl, rfl, rfl⟩
    · intro h200
      rw [hres] at h200
      exact absurd h200 (by simp)

/-- Witness for `C5_bulk_delete_all_or_nothing`: ids `[41, 42]` where article
42 belongs to author 6 — requester 5 gets a 403 and nothing changes. -/
theorem C5_bulk_delete_witness :
    (([{ baseArticle with aid := 41, author := 5 },
       { baseArticle with aid := 42, author := 6 }] : List Article).map
         (·.aid)).Nodup
    ∧ ((bulkDelete
          [{ baseArticle with aid := 41, author := 5 },
           { baseArticle with aid := 42, author := 6 }] 5 [41, 42]).status = 403
      ∧ (bulkDelete
          [{ baseArticle with aid := 41, author := 5 },
           { baseArticle with aid := 42, author := 6 }] 5 [41, 42]).store
          = [{ baseArticle with aid := 41, author := 5 },
             { baseArticle with aid := 42, author := 6 }]
      ∧ (bulkDelete
          [{ baseArticle with aid := 41, author := 5 },
           { baseArticle with aid := 42, author := 6 }] 5 [41, 42]).trace = []) :=
  ⟨by decide,
   (C5_bulk_delete_all_or_nothing
      [{ baseArticle with aid := 41, author := 5 },
       { baseArticle with aid := 42, author := 6 }] 5 [41, 42] (by decide)).1
     (by decide)⟩

end Medium
